import Mathlib

/-!
Shallow embedding of the passwordless-authentication and progress/leaderboard
core of the LMS backend (src/main.py together with the Pydantic models of
src/schemas.py).

Modelling decisions, applied uniformly:
* The Mongo collections `otp`, `session`, `user`, `progress` are lists of
  records in insertion order; `create_document` appends, `find_one` is the
  first match in that order, `update_one` rewrites the first match.
* Time is a natural number of seconds supplied by the caller (the code reads
  `datetime.now(timezone.utc)`); `timedelta(minutes=10)` is 600 seconds.
* Randomness (`secrets.randbelow`, `secrets.token_hex`) is injected as
  parameters.
* An absent or null document field is `none`; a `datetime` value read back
  from the store is always truthy in Python, so `Option Nat` captures the
  truthiness test `rec.get("expires_at")` exactly.
* The float-valued `score` field is modelled with exact integers, since every
  property at issue is arithmetic on whole scores.
* `raise HTTPException` is an error return; the store at that moment is the
  store the handler leaves behind.
-/

/-- Document of the `otp` collection (class `OTP` of src/schemas.py):
`{email, code, expires_at}`. `expires_at : Option Nat` so that a record
lacking the field (or holding null) can be represented. -/
structure OTPRec where
  email : String
  code : String
  expires_at : Option Nat
deriving DecidableEq

/-- Document of the `session` collection (class `Session` of src/schemas.py). -/
structure SessionRec where
  email : String
  token : String
  created_at : Nat
deriving DecidableEq

/-- Document of the `user` collection (class `User` of src/schemas.py),
restricted to the fields the core writes. -/
structure UserRec where
  email : String
  name : Option String
  role : String
  locale : String
  points : Int
deriving DecidableEq

/-- Document of the `progress` collection (class `Progress` of
src/schemas.py). `completed` and `score` are `Option` because a document
inserted by the upsert carries only the fields the caller supplied;
`updated_at` is maintained by the `$currentDate` clause. -/
structure ProgressRec where
  user_email : String
  course_id : String
  lesson_id : Option String
  completed : Option Bool
  score : Option Int
  updated_at : Option Nat
deriving DecidableEq

/-- The document store: the four collections the core touches, each in
insertion order. -/
structure Store where
  otp : List OTPRec
  session : List SessionRec
  user : List UserRec
  progress : List ProgressRec
deriving DecidableEq

def emptyStore : Store := ⟨[], [], [], []⟩

/-- The code string `f"{secrets.randbelow(1000000):06d}"` of
`request_otp` (src/main.py line 88). The random draw below 1000000 is
modelled by reducing an arbitrary injected `r` modulo 1000000; the format
spec then zero-pads the decimal expansion to exactly six characters. -/
def otpCodeStr (r : Nat) : String :=
  let x := r % 1000000
  String.mk ([x / 100000 % 10, x / 10000 % 10, x / 1000 % 10,
              x / 100 % 10, x / 10 % 10, x % 10].map
    (fun d => Char.ofNat (48 + d)))

/-- `timedelta(minutes=10)` in seconds. -/
def validityWindow : Nat := 600

/-- Handler `request_otp` of `POST /auth/request-otp` (src/main.py lines
86-92): builds the six-digit code, sets expiry to now + 10 minutes, appends
one `otp` document, and returns the code to the caller. -/
def request_otp (st : Store) (email : String) (r : Nat) (now : Nat) :
    Store × String :=
  let code := otpCodeStr r
  let expires := now + validityWindow
  ({ st with otp := st.otp ++ [{ email := email, code := code,
                                 expires_at := some expires }] },
   code)

/-- The two HTTP 400 failures of `verify_otp`: detail "Invalid code" and
detail "Code expired". -/
inductive VerifyError where
  | invalidCode
  | codeExpired
deriving DecidableEq

/-- The filter `{"email": body.email, "code": body.code}` of the
`find_one` in `verify_otp` (src/main.py line 103): exact string equality
on both fields. -/
def otpMatches (email code : String) (doc : OTPRec) : Bool :=
  doc.email == email && doc.code == code

/-- `User(email=body.email)` (src/main.py line 113): every other field takes
its Pydantic default (`role="student"`, `locale="en"`, `points=0`). -/
def defaultUser (email : String) : UserRec :=
  { email := email, name := none, role := "student", locale := "en",
    points := 0 }

/-- The success path of `verify_otp` (src/main.py lines 108-114): append a
`session` document carrying the fresh token, then append a default `user`
document only when none with this email exists, and return the token. -/
def verifySuccess (st : Store) (email token : String) (now : Nat) :
    Store × Except VerifyError String :=
  let st1 := { st with session := st.session ++
                 [{ email := email, token := token, created_at := now }] }
  let st2 := if (st1.user.find? (fun u => u.email == email)).isSome then st1
             else { st1 with user := st1.user ++ [defaultUser email] }
  (st2, Except.ok token)

/-- Handler `verify_otp` of `POST /auth/verify-otp` (src/main.py lines
100-114). The guard `if rec.get("expires_at") and rec["expires_at"] < now`
checks expiry only when the field is present and truthy; a missing or null
`expires_at` skips the check. The returned store is the store at the
moment the handler returns or raises. -/
def verify_otp (st : Store) (email code token : String) (now : Nat) :
    Store × Except VerifyError String :=
  match st.otp.find? (otpMatches email code) with
  | none => (st, Except.error VerifyError.invalidCode)
  | some doc =>
    match doc.expires_at with
    | some e =>
      if e < now then (st, Except.error VerifyError.codeExpired)
      else verifySuccess st email token now
    | none => verifySuccess st email token now

/-- The parsed body of `POST /progress` (class `Progress` of
src/schemas.py) together with which optional fields the caller explicitly
supplied, which is what `model_dump(exclude_unset=True)` keys the `$set`
document on. `user_email`, `course_id` and the `lesson_id` value always
enter the `update_one` filter. -/
structure ProgressBody where
  user_email : String
  course_id : String
  lesson_id : Option String
  completedSupplied : Bool
  completed : Bool
  scoreSupplied : Bool
  score : Option Int
deriving DecidableEq

/-- The `update_one` filter of `upsert_progress` (src/main.py line 274):
equality on the composite key (user_email, course_id, lesson_id). -/
def sameKey (u c : String) (l : Option String) (r : ProgressRec) : Bool :=
  r.user_email == u && r.course_id == c && r.lesson_id == l

def progressKeyMatches (b : ProgressBody) (r : ProgressRec) : Bool :=
  sameKey b.user_email b.course_id b.lesson_id r

/-- The `$set` of `model_dump(exclude_unset=True)` plus
`"$currentDate": {"updated_at": True}` applied to a matched document
(src/main.py line 275). The key fields of the `$set` are omitted: on a
filter-matched document they already hold the body values. -/
def applySet (b : ProgressBody) (now : Nat) (r : ProgressRec) : ProgressRec :=
  { r with
    completed := if b.completedSupplied then some b.completed else r.completed
    score := if b.scoreSupplied then b.score else r.score
    updated_at := some now }

/-- The document Mongo inserts when the upsert filter matches nothing: the
equality fields of the filter plus the `$set` fields plus `$currentDate`. -/
def insertDoc (b : ProgressBody) (now : Nat) : ProgressRec :=
  { user_email := b.user_email, course_id := b.course_id,
    lesson_id := b.lesson_id,
    completed := if b.completedSupplied then some b.completed else none,
    score := if b.scoreSupplied then b.score else none,
    updated_at := some now }

/-- Rewrite the first record satisfying `p`, as `update_one` does. -/
def updateFirst (p : α → Bool) (f : α → α) : List α → List α
  | [] => []
  | x :: xs => if p x then f x :: xs else x :: updateFirst p f xs

/-- Handler `upsert_progress` of `POST /progress` (src/main.py lines
270-278): `update_one(filter, {"$set": ..., "$currentDate": ...},
upsert=True)` updates the first document matching the composite key, or
inserts a fresh one when none matches. -/
def upsert_progress (st : Store) (b : ProgressBody) (now : Nat) : Store :=
  if st.progress.any (progressKeyMatches b) then
    { st with progress :=
        updateFirst (progressKeyMatches b) (applySet b now) st.progress }
  else
    { st with progress := st.progress ++ [insertDoc b now] }

/-- An element of the `GET /leaderboard` response:
`{"user_email": ..., "score": ...}`. -/
structure LBEntry where
  user_email : String
  score : Int
deriving DecidableEq

/-- How a `GET /leaderboard` call can fail. `invalidArgument` is a
4xx argument-validation failure; the handler never produces it.
`operationFailure` is the pymongo `OperationFailure` that a rejected
aggregation pipeline raises, which main.py does not catch, so it
surfaces as an internal server error. -/
inductive LBError where
  | invalidArgument
  | operationFailure
deriving DecidableEq

/-- `{"$ifNull": ["$score", 0]}`: a missing or null score counts as 0. -/
def scoreOrZero (r : ProgressRec) : Int := r.score.getD 0

/-- The per-identity total the `$group` stage computes:
`{"$sum": {"$ifNull": ["$score", 0]}}` over the documents of one
`user_email`. -/
def totalScore (prog : List ProgressRec) (email : String) : Int :=
  ((prog.filter (fun r => r.user_email == email)).map scoreOrZero).sum

/-- Keep the first occurrence of every string, dropping later repeats. -/
def dedupFirst : List String → List String
  | [] => []
  | x :: xs => x :: (dedupFirst xs).filter (fun y => y != x)

/-- The `$group` stage keyed on `$user_email` (src/main.py line 293): one
entry per distinct identity, holding its summed score. The server does not
fix the order of group output; first appearance is taken, and the `$sort`
stage follows. -/
def groupTotals (prog : List ProgressRec) : List LBEntry :=
  (dedupFirst (prog.map (fun r => r.user_email))).map
    (fun e => { user_email := e, score := totalScore prog e })

/-- The order of `{"$sort": {"score": -1}}`: descending by score. -/
def lbLE (a b : LBEntry) : Prop := b.score ≤ a.score

instance : DecidableRel lbLE :=
  fun a b => inferInstanceAs (Decidable (b.score ≤ a.score))

instance : IsTotal LBEntry lbLE := ⟨fun a b => le_total b.score a.score⟩

instance : IsTrans LBEntry lbLE := ⟨fun _ _ _ h1 h2 => le_trans h2 h1⟩

def sortDesc (l : List LBEntry) : List LBEntry := List.insertionSort lbLE l

/-- Handler `leaderboard` of `GET /leaderboard` (src/main.py lines
290-298): the pipeline `$group` / `$sort score: -1` / `$limit limit`.
MongoDB rejects a `$limit` stage whose argument is not positive ("the
limit must be positive"); pymongo then raises `OperationFailure`, which
the handler does not catch, so a non-positive `limit` fails with
`operationFailure` before any result is produced. -/
def leaderboard (st : Store) (limit : Int) : Except LBError (List LBEntry) :=
  if limit ≤ 0 then Except.error LBError.operationFailure
  else Except.ok ((sortDesc (groupTotals st.progress)).take limit.toNat)

/-- One HTTP call into the core, with its injected randomness and clock. -/
inductive Op where
  | reqOtp (email : String) (r : Nat) (now : Nat)
  | verify (email code token : String) (now : Nat)
  | progress (b : ProgressBody) (now : Nat)

/-- The store an HTTP call leaves behind; a failed verification leaves the
store as it stood at the raise. -/
def applyOp (st : Store) : Op → Store
  | Op.reqOtp e r n => (request_otp st e r n).1
  | Op.verify e c t n => (verify_otp st e c t n).1
  | Op.progress b n => upsert_progress st b n

def runOps (ops : List Op) (st : Store) : Store := ops.foldl applyOp st

/-- At most one `user` document per email. -/
def atMostOneUserPer (us : List UserRec) : Prop :=
  ∀ e : String, (us.filter (fun u => u.email == e)).length ≤ 1

/-- At most one `progress` document per composite key. -/
def atMostOneProgressPer (ps : List ProgressRec) : Prop :=
  ∀ (u c : String) (l : Option String), (ps.filter (sameKey u c l)).length ≤ 1

deriving instance DecidableEq for Except

lemma otpMatches_iff (email code : String) (d : OTPRec) :
    otpMatches email code d = true ↔ (d.email = email ∧ d.code = code) := by
  simp [otpMatches]

lemma verifySuccess_snd (st : Store) (email token : String) (now : Nat) :
    (verifySuccess st email token now).2 = Except.ok token := rfl

lemma verifySuccess_fst_otp (st : Store) (email token : String) (now : Nat) :
    ((verifySuccess st email token now).1).otp = st.otp := by
  unfold verifySuccess
  dsimp only
  split <;> rfl

lemma verifySuccess_fst_progress (st : Store) (email token : String) (now : Nat) :
    ((verifySuccess st email token now).1).progress = st.progress := by
  unfold verifySuccess
  dsimp only
  split <;> rfl

lemma verifySuccess_fst_session (st : Store) (email token : String) (now : Nat) :
    ((verifySuccess st email token now).1).session =
      st.session ++ [{ email := email, token := token, created_at := now }] := by
  unfold verifySuccess
  dsimp only
  split <;> rfl

lemma verifySuccess_fst_user (st : Store) (email token : String) (now : Nat) :
    ((verifySuccess st email token now).1).user =
      if (st.user.find? (fun u => u.email == email)).isSome then st.user
      else st.user ++ [defaultUser email] := by
  unfold verifySuccess
  dsimp only
  split <;> simp_all

lemma verify_otp_success (st : Store) (email code token : String) (now : Nat)
    (doc : OTPRec) (hf : st.otp.find? (otpMatches email code) = some doc)
    (he : ∀ e, doc.expires_at = some e → ¬ e < now) :
    verify_otp st email code token now = verifySuccess st email token now := by
  simp only [verify_otp, hf]
  cases hexp : doc.expires_at with
  | none => rfl
  | some e => simp only [if_neg (he e hexp)]

lemma verify_otp_expired (st : Store) (email code token : String) (now : Nat)
    (doc : OTPRec) (e : Nat) (hf : st.otp.find? (otpMatches email code) = some doc)
    (he : doc.expires_at = some e) (hlt : e < now) :
    verify_otp st email code token now = (st, Except.error VerifyError.codeExpired) := by
  simp only [verify_otp, hf, he, if_pos hlt]

lemma verify_otp_no_match (st : Store) (email code token : String) (now : Nat)
    (hf : st.otp.find? (otpMatches email code) = none) :
    verify_otp st email code token now = (st, Except.error VerifyError.invalidCode) := by
  simp only [verify_otp, hf]

lemma verify_otp_ok_inv (st : Store) (email code token : String) (now : Nat)
    (t : String) (h : (verify_otp st email code token now).2 = Except.ok t) :
    t = token ∧
    verify_otp st email code token now = verifySuccess st email token now ∧
    ∃ doc, st.otp.find? (otpMatches email code) = some doc ∧
      ∀ e, doc.expires_at = some e → ¬ e < now := by
  cases hf : st.otp.find? (otpMatches email code) with
  | none =>
    rw [verify_otp_no_match st email code token now hf] at h
    exact absurd h (by simp)
  | some doc =>
    cases hexp : doc.expires_at with
    | none =>
      have hs := verify_otp_success st email code token now doc hf
        (fun e he => by rw [hexp] at he; cases he)
      rw [hs, verifySuccess_snd] at h
      exact ⟨(Except.ok.inj h).symm, hs, doc, rfl,
        fun e he => by rw [hexp] at he; cases he⟩
    | some e =>
      by_cases hlt : e < now
      · rw [verify_otp_expired st email code token now doc e hf hexp hlt] at h
        exact absurd h (by simp)
      · have he2 : ∀ e2, doc.expires_at = some e2 → ¬ e2 < now := by
          intro e2 he2
          rw [hexp] at he2
          rw [← Option.some.inj he2]
          exact hlt
        have hs := verify_otp_success st email code token now doc hf he2
        rw [hs, verifySuccess_snd] at h
        exact ⟨(Except.ok.inj h).symm, hs, doc, rfl, he2⟩

lemma verify_otp_err_inv (st : Store) (email code token : String) (now : Nat)
    (err : VerifyError) (h : (verify_otp st email code token now).2 = Except.error err) :
    (verify_otp st email code token now).1 = st := by
  cases hf : st.otp.find? (otpMatches email code) with
  | none => rw [verify_otp_no_match st email code token now hf]
  | some doc =>
    cases hexp : doc.expires_at with
    | none =>
      have hs := verify_otp_success st email code token now doc hf
        (fun e he => by rw [hexp] at he; cases he)
      rw [hs, verifySuccess_snd] at h
      exact absurd h (by simp)
    | some e =>
      by_cases hlt : e < now
      · rw [verify_otp_expired st email code token now doc e hf hexp hlt]
      · have he2 : ∀ e2, doc.expires_at = some e2 → ¬ e2 < now := by
          intro e2 he2
          rw [hexp] at he2
          rw [← Option.some.inj he2]
          exact hlt
        rw [verify_otp_success st email code token now doc hf he2,
          verifySuccess_snd] at h
        exact absurd h (by simp)

lemma verify_otp_fst_otp (st : Store) (email code token : String) (now : Nat) :
    ((verify_otp st email code token now).1).otp = st.otp := by
  cases hf : st.otp.find? (otpMatches email code) with
  | none => rw [verify_otp_no_match st email code token now hf]
  | some doc =>
    cases hexp : doc.expires_at with
    | none =>
      rw [verify_otp_success st email code token now doc hf
        (fun e he => by rw [hexp] at he; cases he)]
      exact verifySuccess_fst_otp st email token now
    | some e =>
      by_cases hlt : e < now
      · rw [verify_otp_expired st email code token now doc e hf hexp hlt]
      · rw [verify_otp_success st email code token now doc hf
          (fun e2 he2 => by rw [hexp] at he2; rw [← Option.some.inj he2]; exact hlt)]
        exact verifySuccess_fst_otp st email token now

lemma verify_otp_fst_progress (st : Store) (email code token : String) (now : Nat) :
    ((verify_otp st email code token now).1).progress = st.progress := by
  cases hf : st.otp.find? (otpMatches email code) with
  | none => rw [verify_otp_no_match st email code token now hf]
  | some doc =>
    cases hexp : doc.expires_at with
    | none =>
      rw [verify_otp_success st email code token now doc hf
        (fun e he => by rw [hexp] at he; cases he)]
      exact verifySuccess_fst_progress st email token now
    | some e =>
      by_cases hlt : e < now
      · rw [verify_otp_expired st email code token now doc e hf hexp hlt]
      · rw [verify_otp_success st email code token now doc hf
          (fun e2 he2 => by rw [hexp] at he2; rw [← Option.some.inj he2]; exact hlt)]
        exact verifySuccess_fst_progress st email token now

lemma verify_otp_snd_invalidCode_iff (st : Store) (email code token : String)
    (now : Nat) :
    (verify_otp st email code token now).2 = Except.error VerifyError.invalidCode ↔
      st.otp.find? (otpMatches email code) = none := by
  constructor
  · intro h
    cases hf : st.otp.find? (otpMatches email code) with
    | none => rfl
    | some doc =>
      cases hexp : doc.expires_at with
      | none =>
        rw [verify_otp_success st email code token now doc hf
          (fun e he => by rw [hexp] at he; cases he), verifySuccess_snd] at h
        exact absurd h (by simp)
      | some e =>
        by_cases hlt : e < now
        · rw [verify_otp_expired st email code token now doc e hf hexp hlt] at h
          exact absurd h (by simp)
        · rw [verify_otp_success st email code token now doc hf
            (fun e2 he2 => by rw [hexp] at he2; rw [← Option.some.inj he2]; exact hlt),
            verifySuccess_snd] at h
          exact absurd h (by simp)
  · intro hf
    rw [verify_otp_no_match st email code token now hf]

/-- C2: if a matching `otp` document exists and every matching document is
strictly past its expiry, `verify_otp` fails with the "Code expired" error
and leaves the store unchanged; concretely, a code issued at t=0 with the
10-minute window verifies successfully at 9m59s (t=599) and fails with
"Code expired" at 10m01s (t=601). -/
theorem C2_expired_code_rejected :
    (∀ (st : Store) (email code token : String) (now : Nat),
      (∃ d ∈ st.otp, otpMatches email code d = true) →
      (∀ d ∈ st.otp, otpMatches email code d = true →
        ∃ e, d.expires_at = some e ∧ e < now) →
      verify_otp st email code token now =
        (st, Except.error VerifyError.codeExpired)) ∧
    (verify_otp (request_otp emptyStore "a@x.com" 123456 0).1
        "a@x.com" "123456" "t1" 599).2 = Except.ok "t1" ∧
    (verify_otp (request_otp emptyStore "a@x.com" 123456 0).1
        "a@x.com" "123456" "t2" 601).2 = Except.error VerifyError.codeExpired := by
  refine ⟨?_, by decide, by decide⟩
  intro st email code token now hex hall
  cases hf : st.otp.find? (otpMatches email code) with
  | none =>
    obtain ⟨d0, hd0, hm0⟩ := hex
    exact absurd hm0 (List.find?_eq_none.mp hf d0 hd0)
  | some doc =>
    obtain ⟨e, he, hlt⟩ := hall doc (List.mem_of_find?_eq_some hf)
      (List.find?_some hf)
    exact verify_otp_expired st email code token now doc e hf he hlt

/-- C3: `verify_otp` fails with the "Invalid code" error exactly when no
stored `otp` document carries both the presented email and the presented
code under exact string equality, and such a failure leaves the store (in
particular the `session` collection) unchanged; the two concrete conjuncts
show that a presented code differing from the stored "123456" only by
leading or trailing whitespace does not match. -/
theorem C3_invalid_code_iff_no_match :
    (∀ (st : Store) (email code token : String) (now : Nat),
      ((verify_otp st email code token now).2 =
          Except.error VerifyError.invalidCode ↔
        ∀ d ∈ st.otp, ¬ (d.email = email ∧ d.code = code)) ∧
      ((verify_otp st email code token now).2 =
          Except.error VerifyError.invalidCode →
        verify_otp st email code token now =
          (st, Except.error VerifyError.invalidCode))) ∧
    (verify_otp ⟨[{ email := "a@x.com", code := "123456", expires_at := some 600 }],
        [], [], []⟩ "a@x.com" " 123456" "t" 0).2 =
      Except.error VerifyError.invalidCode ∧
    (verify_otp ⟨[{ email := "a@x.com", code := "123456", expires_at := some 600 }],
        [], [], []⟩ "a@x.com" "123456 " "t" 0).2 =
      Except.error VerifyError.invalidCode := by
  refine ⟨?_, by decide, by decide⟩
  intro st email code token now
  constructor
  · rw [verify_otp_snd_invalidCode_iff, List.find?_eq_none]
    constructor
    · intro h d hd
      rw [← otpMatches_iff email code d]
      exact h d hd
    · intro h d hd
      rw [otpMatches_iff email code d]
      exact h d hd
  · intro h
    exact verify_otp_no_match st email code token now
      ((verify_otp_snd_invalidCode_iff st email code token now).mp h)

/-- C5: a verification that fails (with either error) leaves the store
exactly as it was: in particular no `session` document and no `user`
document is created by the failed call. -/
theorem C5_failed_verification_frame :
    ∀ (st st2 : Store) (email code token : String) (now : Nat)
      (err : VerifyError),
      verify_otp st email code token now = (st2, Except.error err) →
      st2 = st ∧ st2.session = st.session ∧ st2.user = st.user := by
  intro st st2 email code token now err h
  have h2 : (verify_otp st email code token now).2 = Except.error err := by
    rw [h]
  have h1 : (verify_otp st email code token now).1 = st :=
    verify_otp_err_inv st email code token now err h2
  rw [h] at h1
  have h1b : st2 = st := h1
  exact ⟨h1b, by rw [h1b], by rw [h1b]⟩

/-- Witness for C5 at a concrete populated store: presenting a wrong code
fails with "Invalid code" and the store is untouched. -/
theorem C5_failed_verification_frame_witness :
    (⟨[{ email := "a@x.com", code := "111111", expires_at := some 50 }],
      [{ email := "a@x.com", token := "tk", created_at := 1 }],
      [defaultUser "a@x.com"], []⟩ : Store) =
      ⟨[{ email := "a@x.com", code := "111111", expires_at := some 50 }],
       [{ email := "a@x.com", token := "tk", created_at := 1 }],
       [defaultUser "a@x.com"], []⟩ ∧
    (⟨[{ email := "a@x.com", code := "111111", expires_at := some 50 }],
      [{ email := "a@x.com", token := "tk", created_at := 1 }],
      [defaultUser "a@x.com"], []⟩ : Store).session =
      (⟨[{ email := "a@x.com", code := "111111", expires_at := some 50 }],
        [{ email := "a@x.com", token := "tk", created_at := 1 }],
        [defaultUser "a@x.com"], []⟩ : Store).session ∧
    (⟨[{ email := "a@x.com", code := "111111", expires_at := some 50 }],
      [{ email := "a@x.com", token := "tk", created_at := 1 }],
      [defaultUser "a@x.com"], []⟩ : Store).user =
      (⟨[{ email := "a@x.com", code := "111111", expires_at := some 50 }],
        [{ email := "a@x.com", token := "tk", created_at := 1 }],
        [defaultUser "a@x.com"], []⟩ : Store).user :=
  C5_failed_verification_frame _ _ "a@x.com" "222222" "t" 90
    VerifyError.invalidCode (by decide)

/-- C10: when the `otp` document the lookup returns has no (or a null)
`expires_at`, the guard `rec.get("expires_at") and ...` short-circuits, so
verification succeeds at every current time and can never fail with
"Code expired". -/
theorem C10_null_expiry_never_expires :
    ∀ (st : Store) (email code token : String) (now : Nat) (doc : OTPRec),
      st.otp.find? (otpMatches email code) = some doc →
      doc.expires_at = none →
      verify_otp st email code token now = verifySuccess st email token now ∧
      (verify_otp st email code token now).2 = Except.ok token ∧
      (verify_otp st email code token now).2 ≠
        Except.error VerifyError.codeExpired := by
  intro st email code token now doc hf hexp
  have hs := verify_otp_success st email code token now doc hf
    (fun e he => by rw [hexp] at he; cases he)
  refine ⟨hs, ?_, ?_⟩
  · rw [hs, verifySuccess_snd]
  · rw [hs, verifySuccess_snd]
    simp

/-- Witness for C10: a stored code without an expiry verifies a billion
seconds after issuance. -/
theorem C10_null_expiry_never_expires_witness :
    verify_otp ⟨[{ email := "a@x.com", code := "123456", expires_at := none }],
        [], [], []⟩ "a@x.com" "123456" "t" 1000000000 =
      verifySuccess ⟨[{ email := "a@x.com", code := "123456", expires_at := none }],
        [], [], []⟩ "a@x.com" "t" 1000000000 ∧
    (verify_otp ⟨[{ email := "a@x.com", code := "123456", expires_at := none }],
        [], [], []⟩ "a@x.com" "123456" "t" 1000000000).2 = Except.ok "t" ∧
    (verify_otp ⟨[{ email := "a@x.com", code := "123456", expires_at := none }],
        [], [], []⟩ "a@x.com" "123456" "t" 1000000000).2 ≠
      Except.error VerifyError.codeExpired :=
  C10_null_expiry_never_expires _ "a@x.com" "123456" "t" 1000000000
    { email := "a@x.com", code := "123456", expires_at := none } (by decide) rfl

lemma upsert_progress_fst_user (st : Store) (b : ProgressBody) (now : Nat) :
    (upsert_progress st b now).user = st.user := by
  unfold upsert_progress
  split <;> rfl

lemma verify_otp_fst_user_cases (st : Store) (email code token : String)
    (now : Nat) :
    ((verify_otp st email code token now).1).user = st.user ∨
    (st.user.find? (fun u => u.email == email) = none ∧
      ((verify_otp st email code token now).1).user =
        st.user ++ [defaultUser email]) := by
  cases hf : st.otp.find? (otpMatches email code) with
  | none => left; rw [verify_otp_no_match st email code token now hf]
  | some doc =>
    have success : ∀ (hs : verify_otp st email code token now =
        verifySuccess st email token now),
        ((verify_otp st email code token now).1).user = st.user ∨
        (st.user.find? (fun u => u.email == email) = none ∧
          ((verify_otp st email code token now).1).user =
            st.user ++ [defaultUser email]) := by
      intro hs
      rw [hs, verifySuccess_fst_user]
      by_cases hu : (st.user.find? (fun u => u.email == email)).isSome = true
      · left; rw [if_pos hu]
      · right
        exact ⟨Option.not_isSome_iff_eq_none.mp hu, by rw [if_neg hu]⟩
    cases hexp : doc.expires_at with
    | none =>
      exact success (verify_otp_success st email code token now doc hf
        (fun e he => by rw [hexp] at he; cases he))
    | some e =>
      by_cases hlt : e < now
      · left; rw [verify_otp_expired st email code token now doc e hf hexp hlt]
      · exact success (verify_otp_success st email code token now doc hf
          (fun e2 he2 => by rw [hexp] at he2; rw [← Option.some.inj he2]; exact hlt))

lemma atMostOneUserPer_append (us : List UserRec) (email : String)
    (hn : us.find? (fun u => u.email == email) = none)
    (h : atMostOneUserPer us) : atMostOneUserPer (us ++ [defaultUser email]) := by
  intro e
  rw [List.filter_append, List.length_append]
  by_cases he : email = e
  · subst he
    have hnil : us.filter (fun u => u.email == email) = [] :=
      List.filter_eq_nil_iff.mpr (List.find?_eq_none.mp hn)
    rw [hnil]
    simp [defaultUser]
  · have hone : List.filter (fun u => u.email == e) [defaultUser email] = [] := by
      simp [List.filter_cons, defaultUser, he]
    rw [hone]
    simpa using h e

lemma applyOp_user_inv (st : Store) (op : Op) (h : atMostOneUserPer st.user) :
    atMostOneUserPer ((applyOp st op).user) := by
  cases op with
  | reqOtp e r n => exact h
  | progress b n =>
    show atMostOneUserPer ((upsert_progress st b n).user)
    rw [upsert_progress_fst_user]
    exact h
  | verify e c t n =>
    show atMostOneUserPer (((verify_otp st e c t n).1).user)
    rcases verify_otp_fst_user_cases st e c t n with hu | ⟨hn, hu⟩
    · rw [hu]; exact h
    · rw [hu]; exact atMostOneUserPer_append st.user e hn h

lemma runOps_inv (P : Store → Prop)
    (hstep : ∀ st op, P st → P (applyOp st op)) :
    ∀ (ops : List Op) (st : Store), P st → P (runOps ops st)
  | [], _, h => h
  | op :: ops, st, h =>
    runOps_inv P hstep ops (applyOp st op) (hstep st op h)

/-- C4: starting from the empty store, any sequence of core operations
leaves at most one `user` document per email; a verification never changes
the `user` collection when a document for the identity already exists, and
a successful verification for an absent identity appends exactly the one
default document (role "student", locale "en", points 0). -/
theorem C4_account_per_identity_unique :
    (∀ ops : List Op, atMostOneUserPer ((runOps ops emptyStore).user)) ∧
    (∀ (st : Store) (email code token : String) (now : Nat),
      ((st.user.find? (fun u => u.email == email)).isSome →
        ((verify_otp st email code token now).1).user = st.user) ∧
      ((verify_otp st email code token now).2 = Except.ok token →
        st.user.find? (fun u => u.email == email) = none →
        ((verify_otp st email code token now).1).user =
          st.user ++ [defaultUser email])) := by
  constructor
  · intro ops
    exact runOps_inv (fun st => atMostOneUserPer st.user)
      applyOp_user_inv ops emptyStore (fun e => by simp [emptyStore])
  · intro st email code token now
    constructor
    · intro hsome
      rcases verify_otp_fst_user_cases st email code token now with hu | ⟨hn, _⟩
      · exact hu
      · rw [hn] at hsome; exact absurd hsome (by simp)
    · intro hok hnone
      obtain ⟨-, hs, -⟩ := verify_otp_ok_inv st email code token now token hok
      rw [hs, verifySuccess_fst_user, if_neg (by rw [hnone]; simp)]

lemma digitChar_isDigit (n : Nat) : (Char.ofNat (48 + n % 10)).isDigit = true := by
  have h : ∀ i : Fin 10, (Char.ofNat (48 + i.val)).isDigit = true := by decide
  exact h ⟨n % 10, Nat.mod_lt n (by norm_num)⟩

lemma otpCodeStr_length (r : Nat) : (otpCodeStr r).length = 6 := rfl

lemma otpCodeStr_digits (r : Nat) :
    (otpCodeStr r).data.all Char.isDigit = true := by
  simp [otpCodeStr, digitChar_isDigit]

/-- C6: `request_otp` returns a string of exactly six decimal digits, sets
the expiry of the stored document to the current time plus the 10-minute
window, appends exactly one `otp` document bound to the identity after all
previously stored documents, touches no other collection, and the stored
code is the code returned to the caller. -/
theorem C6_request_otp_contract :
    ∀ (st : Store) (email : String) (r now : Nat),
      ((request_otp st email r now).2).length = 6 ∧
      ((request_otp st email r now).2).data.all Char.isDigit = true ∧
      ((request_otp st email r now).1).otp = st.otp ++
        [{ email := email, code := (request_otp st email r now).2,
           expires_at := some (now + validityWindow) }] ∧
      ((request_otp st email r now).1).session = st.session ∧
      ((request_otp st email r now).1).user = st.user ∧
      ((request_otp st email r now).1).progress = st.progress :=
  fun st email r now =>
    ⟨otpCodeStr_length r, otpCodeStr_digits r, rfl, rfl, rfl, rfl⟩

/-- C1 counterexample: issue a code for `a@x.com` at t=0 and again at t=60
(within the first validity window), with the random draw colliding so that
both stored codes are the string "000000". At t=601 the second document is
still unexpired (its expiry is 660), yet verifying "000000" fails with
"Code expired", because `find_one` returns the earlier, expired document.
This refutes the claim that verification succeeds with either issued code
until each individually expires. -/
theorem C1_counterexample :
    (request_otp emptyStore "a@x.com" 0 0).2 = "000000" ∧
    (request_otp (request_otp emptyStore "a@x.com" 0 0).1 "a@x.com" 0 60).2 =
      "000000" ∧
    ((request_otp (request_otp emptyStore "a@x.com" 0 0).1 "a@x.com" 0 60).1).otp =
      [{ email := "a@x.com", code := "000000", expires_at := some 600 },
       { email := "a@x.com", code := "000000", expires_at := some 660 }] ∧
    (601 ≤ 660) ∧
    (verify_otp (request_otp (request_otp emptyStore "a@x.com" 0 0).1
        "a@x.com" 0 60).1 "a@x.com" "000000" "t" 601).2 =
      Except.error VerifyError.codeExpired := by
  refine ⟨by decide, by decide, by decide, by decide, by decide⟩

lemma request_otp_eq (st : Store) (email : String) (r now : Nat) :
    request_otp st email r now =
      ({ st with otp := st.otp ++
          [{ email := email, code := otpCodeStr r,
             expires_at := some (now + validityWindow) }] },
       otpCodeStr r) := rfl

/-- C1 amended: a successful verification leaves the `otp` collection
unchanged, and re-presenting the same (identity, code) pair at any time at
which no matching stored document is expired succeeds again, appending a
fresh `session` document with the newly drawn token. When two codes are
issued to the same identity within the validity window, both documents are
stored independently; provided the two generated code strings differ and
no earlier stored document for the identity carries either string, each
code verifies successfully until its own expiry and fails with
"Code expired" strictly after it. (The provisos are forced by the
counterexample: with colliding code strings the earlier, expired document
shadows the later one.) -/
theorem C1_amended_code_not_consumed :
    (∀ (st : Store) (email code token : String) (now : Nat),
      (verify_otp st email code token now).2 = Except.ok token →
      ((verify_otp st email code token now).1).otp = st.otp ∧
      (∀ (token2 : String) (now2 : Nat),
        (∀ d ∈ st.otp, otpMatches email code d = true →
          ∀ e, d.expires_at = some e → ¬ e < now2) →
        (verify_otp ((verify_otp st email code token now).1)
            email code token2 now2).2 = Except.ok token2 ∧
        ((verify_otp ((verify_otp st email code token now).1)
            email code token2 now2).1).session =
          (((verify_otp st email code token now).1).session ++
            [{ email := email, token := token2, created_at := now2 }]))) ∧
    (∀ (st st1 st2 : Store) (email c1 c2 : String) (r1 r2 now1 now2 : Nat),
      request_otp st email r1 now1 = (st1, c1) →
      request_otp st1 email r2 now2 = (st2, c2) →
      now1 ≤ now2 → now2 ≤ now1 + validityWindow →
      c1 ≠ c2 →
      (∀ d ∈ st.otp, d.email = email → d.code ≠ c1 ∧ d.code ≠ c2) →
      st2.otp = st.otp ++
        [{ email := email, code := c1, expires_at := some (now1 + validityWindow) },
         { email := email, code := c2, expires_at := some (now2 + validityWindow) }] ∧
      (∀ (token : String) (t : Nat), ¬ now1 + validityWindow < t →
        (verify_otp st2 email c1 token t).2 = Except.ok token) ∧
      (∀ (token : String) (t : Nat), ¬ now2 + validityWindow < t →
        (verify_otp st2 email c2 token t).2 = Except.ok token) ∧
      (∀ (token : String) (t : Nat), now1 + validityWindow < t →
        (verify_otp st2 email c1 token t).2 =
          Except.error VerifyError.codeExpired) ∧
      (∀ (token : String) (t : Nat), now2 + validityWindow < t →
        (verify_otp st2 email c2 token t).2 =
          Except.error VerifyError.codeExpired)) := by
  constructor
  · intro st email code token now h
    obtain ⟨-, -, doc, hf, -⟩ := verify_otp_ok_inv st email code token now token h
    have hotp : ((verify_otp st email code token now).1).otp = st.otp :=
      verify_otp_fst_otp st email code token now
    refine ⟨hotp, ?_⟩
    intro token2 now2 hunexp
    have hf2 : (((verify_otp st email code token now).1).otp).find?
        (otpMatches email code) = some doc := by rw [hotp]; exact hf
    have hne : ∀ e, doc.expires_at = some e → ¬ e < now2 :=
      hunexp doc (List.mem_of_find?_eq_some hf) (List.find?_some hf)
    have hs2 := verify_otp_success ((verify_otp st email code token now).1)
      email code token2 now2 doc hf2 hne
    exact ⟨by rw [hs2, verifySuccess_snd],
      by rw [hs2, verifySuccess_fst_session]⟩
  · intro st st1 st2 email c1 c2 r1 r2 now1 now2 h1 h2 _ _ hcc hfree
    rw [request_otp_eq] at h1 h2
    injection h1 with hst1 hc1
    subst hst1
    subst hc1
    injection h2 with hst2 hc2
    subst hc2
    have hotp2 : st2.otp = st.otp ++
        [{ email := email, code := otpCodeStr r1,
           expires_at := some (now1 + validityWindow) },
         { email := email, code := otpCodeStr r2,
           expires_at := some (now2 + validityWindow) }] := by
      rw [← hst2]
      simp
    have hn1 : st.otp.find? (otpMatches email (otpCodeStr r1)) = none := by
      refine List.find?_eq_none.mpr ?_
      intro d hd hmatch
      obtain ⟨hde, hdc⟩ := (otpMatches_iff email (otpCodeStr r1) d).mp hmatch
      exact (hfree d hd hde).1 hdc
    have hn2 : st.otp.find? (otpMatches email (otpCodeStr r2)) = none := by
      refine List.find?_eq_none.mpr ?_
      intro d hd hmatch
      obtain ⟨hde, hdc⟩ := (otpMatches_iff email (otpCodeStr r2) d).mp hmatch
      exact (hfree d hd hde).2 hdc
    have hfind1 : st2.otp.find? (otpMatches email (otpCodeStr r1)) =
        some { email := email, code := otpCodeStr r1,
               expires_at := some (now1 + validityWindow) } := by
      rw [hotp2, List.find?_append, hn1,
        List.find?_cons_of_pos _ (by simp [otpMatches])]
      rfl
    have hp2ne : otpMatches email (otpCodeStr r2)
        { email := email, code := otpCodeStr r1,
          expires_at := some (now1 + validityWindow) } = false := by
      simp [otpMatches]
      exact hcc
    have hfind2 : st2.otp.find? (otpMatches email (otpCodeStr r2)) =
        some { email := email, code := otpCodeStr r2,
               expires_at := some (now2 + validityWindow) } := by
      rw [hotp2, List.find?_append, hn2,
        List.find?_cons_of_neg _ (by rw [hp2ne]; simp),
        List.find?_cons_of_pos _ (by simp [otpMatches])]
      rfl
    refine ⟨hotp2, ?_, ?_, ?_, ?_⟩
    · intro token t ht
      rw [verify_otp_success st2 email (otpCodeStr r1) token t _ hfind1
        (fun e he => by rw [← Option.some.inj he]; exact ht), verifySuccess_snd]
    · intro token t ht
      rw [verify_otp_success st2 email (otpCodeStr r2) token t _ hfind2
        (fun e he => by rw [← Option.some.inj he]; exact ht), verifySuccess_snd]
    · intro token t ht
      rw [verify_otp_expired st2 email (otpCodeStr r1) token t _
        (now1 + validityWindow) hfind1 rfl ht]
    · intro token t ht
      rw [verify_otp_expired st2 email (otpCodeStr r2) token t _
        (now2 + validityWindow) hfind2 rfl ht]

lemma sameKey_applySet (u c : String) (l : Option String) (b : ProgressBody)
    (now : Nat) (r : ProgressRec) :
    sameKey u c l (applySet b now r) = sameKey u c l r := rfl

lemma progressKeyMatches_applySet (b : ProgressBody) (now : Nat)
    (r : ProgressRec) :
    progressKeyMatches b (applySet b now r) = progressKeyMatches b r := rfl

lemma progressKeyMatches_insertDoc (b : ProgressBody) (now : Nat) :
    progressKeyMatches b (insertDoc b now) = true := by
  simp [progressKeyMatches, sameKey, insertDoc]

lemma find?_updateFirst (p : α → Bool) (f : α → α)
    (hpf : ∀ x, p (f x) = p x) :
    ∀ (l : List α) (doc : α), l.find? p = some doc →
      (updateFirst p f l).find? p = some (f doc)
  | [], doc, h => by simp at h
  | x :: xs, doc, h => by
    by_cases hx : p x = true
    · rw [List.find?_cons_of_pos _ hx] at h
      have hxd : x = doc := Option.some.inj h
      simp only [updateFirst, if_pos hx]
      subst hxd
      exact List.find?_cons_of_pos _ (by rw [hpf]; exact hx)
    · rw [List.find?_cons_of_neg _ hx] at h
      simp only [updateFirst, if_neg hx]
      rw [List.find?_cons_of_neg _ hx]
      exact find?_updateFirst p f hpf xs doc h

lemma filter_length_updateFirst (p q : α → Bool) (f : α → α)
    (hq : ∀ x, q (f x) = q x) :
    ∀ l : List α,
      ((updateFirst p f l).filter q).length = (l.filter q).length
  | [] => rfl
  | x :: xs => by
    by_cases hx : p x = true
    · simp only [updateFirst, if_pos hx]
      rw [List.filter_cons, List.filter_cons, hq x]
      by_cases hqx : q x = true
      · rw [if_pos hqx, if_pos hqx]
        simp
      · rw [if_neg hqx, if_neg hqx]
    · simp only [updateFirst, if_neg hx]
      rw [List.filter_cons, List.filter_cons]
      by_cases hqx : q x = true
      · rw [if_pos hqx, if_pos hqx]
        simp [filter_length_updateFirst p q f hq xs]
      · rw [if_neg hqx, if_neg hqx]
        exact filter_length_updateFirst p q f hq xs

lemma atMostOneProgressPer_updateFirst (b : ProgressBody) (now : Nat)
    (ps : List ProgressRec) (h : atMostOneProgressPer ps) :
    atMostOneProgressPer
      (updateFirst (progressKeyMatches b) (applySet b now) ps) := by
  intro u c l
  rw [filter_length_updateFirst (progressKeyMatches b) (sameKey u c l)
    (applySet b now) (fun x => sameKey_applySet u c l b now x) ps]
  exact h u c l

lemma atMostOneProgressPer_append (ps : List ProgressRec) (b : ProgressBody)
    (now : Nat) (hn : ps.any (progressKeyMatches b) = false)
    (h : atMostOneProgressPer ps) :
    atMostOneProgressPer (ps ++ [insertDoc b now]) := by
  intro u c l
  rw [List.filter_append, List.length_append]
  by_cases hk : sameKey u c l (insertDoc b now) = true
  · have hbu : (b.user_email = u ∧ b.course_id = c) ∧ b.lesson_id = l := by
      simpa [sameKey, insertDoc] using hk
    obtain ⟨⟨h1, h2⟩, h3⟩ := hbu
    have hnil : ps.filter (sameKey u c l) = [] := by
      rw [← h1, ← h2, ← h3]
      refine List.filter_eq_nil_iff.mpr ?_
      intro a ha
      have hone := List.any_eq_false.mp hn a ha
      simpa [progressKeyMatches] using hone
    rw [hnil]
    simp [hk]
  · have hone : List.filter (sameKey u c l) [insertDoc b now] = [] := by
      simp only [List.filter_cons, hk]
      rfl
    rw [hone]
    simpa using h u c l

lemma upsert_progress_inv (st : Store) (b : ProgressBody) (now : Nat)
    (h : atMostOneProgressPer st.progress) :
    atMostOneProgressPer ((upsert_progress st b now).progress) := by
  unfold upsert_progress
  by_cases ha : st.progress.any (progressKeyMatches b) = true
  · rw [if_pos ha]
    exact atMostOneProgressPer_updateFirst b now st.progress h
  · rw [if_neg ha]
    exact atMostOneProgressPer_append st.progress b now
      (by simpa using ha) h

lemma applyOp_progress_inv (st : Store) (op : Op)
    (h : atMostOneProgressPer st.progress) :
    atMostOneProgressPer ((applyOp st op).progress) := by
  cases op with
  | reqOtp e r n => exact h
  | verify e c t n =>
    show atMostOneProgressPer (((verify_otp st e c t n).1).progress)
    rw [verify_otp_fst_progress]
    exact h
  | progress b n => exact upsert_progress_inv st b n h

/-- C7: starting from the empty store, any sequence of core operations
leaves at most one `progress` document per (user_email, course_id,
lesson_id) composite key; an upsert whose filter matches rewrites the
matched document in place, setting exactly the supplied fields and the
refreshed timestamp while the unsupplied fields keep their prior values
(this is `applySet`), and an upsert whose filter matches nothing inserts
the one document built from the filter key and the supplied fields; the
closing conjunct runs the concrete scenario: upserting
{completed: true} then {score: 80} for the same key leaves one document
with completed true and score 80. -/
theorem C7_progress_merge_upsert :
    (∀ ops : List Op, atMostOneProgressPer ((runOps ops emptyStore).progress)) ∧
    (∀ (st : Store) (b : ProgressBody) (now : Nat) (doc : ProgressRec),
      st.progress.find? (progressKeyMatches b) = some doc →
      ((upsert_progress st b now).progress).find? (progressKeyMatches b) =
        some (applySet b now doc)) ∧
    (∀ (st : Store) (b : ProgressBody) (now : Nat),
      st.progress.find? (progressKeyMatches b) = none →
      ((upsert_progress st b now).progress).find? (progressKeyMatches b) =
        some (insertDoc b now)) ∧
    (upsert_progress (upsert_progress emptyStore
        { user_email := "a@x.com", course_id := "c1", lesson_id := some "l1",
          completedSupplied := true, completed := true,
          scoreSupplied := false, score := none } 5)
        { user_email := "a@x.com", course_id := "c1", lesson_id := some "l1",
          completedSupplied := false, completed := false,
          scoreSupplied := true, score := some 80 } 9).progress =
      [{ user_email := "a@x.com", course_id := "c1", lesson_id := some "l1",
         completed := some true, score := some 80, updated_at := some 9 }] := by
  refine ⟨?_, ?_, ?_, by decide⟩
  · intro ops
    exact runOps_inv (fun st => atMostOneProgressPer st.progress)
      applyOp_progress_inv ops emptyStore (fun u c l => by simp [emptyStore])
  · intro st b now doc hf
    have ha : st.progress.any (progressKeyMatches b) = true :=
      List.any_eq_true.mpr ⟨doc, List.mem_of_find?_eq_some hf,
        List.find?_some hf⟩
    unfold upsert_progress
    rw [if_pos ha]
    exact find?_updateFirst (progressKeyMatches b) (applySet b now)
      (fun x => progressKeyMatches_applySet b now x) st.progress doc hf
  · intro st b now hf
    have ha : ¬ st.progress.any (progressKeyMatches b) = true := by
      rw [List.any_eq_true]
      rintro ⟨x, hx, hpx⟩
      exact absurd hpx (List.find?_eq_none.mp hf x hx)
    unfold upsert_progress
    rw [if_neg ha]
    show (st.progress ++ [insertDoc b now]).find? (progressKeyMatches b) =
      some (insertDoc b now)
    rw [List.find?_append, hf,
      List.find?_cons_of_pos _ (progressKeyMatches_insertDoc b now)]
    rfl

/-- The three progress documents of the concrete leaderboard scenario:
identity a scores 10 and 5 on two lessons, identity b scores 30. -/
def progThree : List ProgressRec :=
  [{ user_email := "a", course_id := "c1", lesson_id := some "l1",
     completed := none, score := some 10, updated_at := none },
   { user_email := "b", course_id := "c1", lesson_id := some "l1",
     completed := none, score := some 30, updated_at := none },
   { user_email := "a", course_id := "c1", lesson_id := some "l2",
     completed := none, score := some 5, updated_at := none }]

/-- C8: for every positive limit n the leaderboard returns at most n
entries, each entry carrying exactly the sum of the score fields of that
identity's progress documents (a missing or null score counted as 0), in
descending order of total score; on the concrete records
[{a,10},{b,30},{a,5}] the top 2 is [{b,30},{a,15}]. -/
theorem C8_leaderboard_topN :
    (∀ (st : Store) (n : Int), 0 < n →
      ∃ entries : List LBEntry,
        leaderboard st n = Except.ok entries ∧
        (entries.length : Int) ≤ n ∧
        (∀ x ∈ entries, x.score = totalScore st.progress x.user_email) ∧
        List.Sorted lbLE entries) ∧
    leaderboard ⟨[], [], [], progThree⟩ 2 =
      Except.ok [{ user_email := "b", score := 30 },
                 { user_email := "a", score := 15 }] := by
  refine ⟨?_, by decide⟩
  intro st n hn
  have hne : ¬ n ≤ 0 := not_le.mpr hn
  refine ⟨(sortDesc (groupTotals st.progress)).take n.toNat, ?_, ?_, ?_, ?_⟩
  · simp [leaderboard, hne]
  · have h1 : ((sortDesc (groupTotals st.progress)).take n.toNat).length ≤
        n.toNat := by
      rw [List.length_take]
      exact Nat.min_le_left _ _
    calc (((sortDesc (groupTotals st.progress)).take n.toNat).length : Int)
        ≤ (n.toNat : Int) := by exact_mod_cast h1
      _ = n := Int.toNat_of_nonneg hn.le
  · intro x hx
    have hx2 : x ∈ sortDesc (groupTotals st.progress) :=
      List.take_subset _ _ hx
    have hx3 : x ∈ groupTotals st.progress :=
      (List.perm_insertionSort lbLE (groupTotals st.progress)).mem_iff.mp hx2
    obtain ⟨e, -, hxe⟩ := List.mem_map.mp hx3
    rw [← hxe]
  · exact List.Pairwise.sublist (List.take_sublist _ _)
      (List.sorted_insertionSort lbLE (groupTotals st.progress))

/-- C9 counterexample: at the non-positive limit 0 the leaderboard call
does not fail with the InvalidArgument error; the handler forwards the
limit to the aggregation pipeline unvalidated and the rejected `$limit`
stage surfaces as an uncaught OperationFailure. -/
theorem C9_counterexample :
    leaderboard emptyStore 0 ≠ Except.error LBError.invalidArgument ∧
    leaderboard emptyStore 0 = Except.error LBError.operationFailure := by
  exact ⟨by decide, by decide⟩

/-- C9 amended: for every non-positive limit the leaderboard call fails —
it returns neither all entries nor none — but the failure is the uncaught
OperationFailure of the rejected `$limit` pipeline stage (an internal
server error), not an InvalidArgument validation error. -/
theorem C9_nonpositive_limit_uncaught_failure :
    ∀ (st : Store) (n : Int), n ≤ 0 →
      leaderboard st n = Except.error LBError.operationFailure ∧
      leaderboard st n ≠ Except.error LBError.invalidArgument ∧
      ∀ entries : List LBEntry, leaderboard st n ≠ Except.ok entries := by
  intro st n hn
  have h : leaderboard st n = Except.error LBError.operationFailure := by
    simp [leaderboard, hn]
  refine ⟨h, by rw [h]; simp, fun entries => by rw [h]; simp⟩

/-- Witness for the amended C9 at the concrete limit -3 on the empty
store. -/
theorem C9_nonpositive_limit_uncaught_failure_witness :
    leaderboard emptyStore (-3) = Except.error LBError.operationFailure ∧
    leaderboard emptyStore (-3) ≠ Except.error LBError.invalidArgument ∧
    ∀ entries : List LBEntry,
      leaderboard emptyStore (-3) ≠ Except.ok entries :=
  C9_nonpositive_limit_uncaught_failure emptyStore (-3) (by decide)
